import Mathlib

/-!
Verification of the Befunge-93 interpreter core (`src/core/` of
nhdewitt/befunge-interpreter).

The Python core is shallowly embedded here:

* grid cells are represented by their character codes (`Nat`), so Python's
  `chr`/`ord` become explicit conversions;
* the operand stack is a `List Int` whose *head* is the top of the stack
  (Python stores the top at the end of `items`; the two views are mirror
  images and all push/pop operations below are stated in head-is-top form);
* the mutable `Interpreter`/`InstructionPointer` object pair is flattened
  into one immutable record `IState`, and every mutating Python method
  becomes a state-to-state function;
* the `?` opcode's random draw is passed in as an explicit oracle argument
  (`rnd`), so theorems quantify over every possible draw.
-/

/-- Execution status reported by `Interpreter.step` (core/interpreter.py,
`StepStatus`). -/
inductive StepStatus where
  | RUNNING
  | AWAITING_INPUT
  | HALTED
deriving DecidableEq, Repr

/-- The kind of input the interpreter is waiting for.  The source passes the
strings "int" / "char" to `Interpreter._await`; only these two values occur. -/
inductive WaitKind where
  | int
  | char
deriving DecidableEq, Repr

/-- IP movement directions (core/direction.py, `Direction`). -/
inductive Direction where
  | RIGHT
  | LEFT
  | UP
  | DOWN
deriving DecidableEq, Repr

/-- `Direction.dx`: x-delta of a direction (core/direction.py). -/
def Direction.dx : Direction → Int
  | .RIGHT => 1
  | .LEFT => -1
  | .UP => 0
  | .DOWN => 0

/-- `Direction.dy`: y-delta of a direction (core/direction.py). -/
def Direction.dy : Direction → Int
  | .RIGHT => 0
  | .LEFT => 0
  | .UP => -1
  | .DOWN => 1

/-- `Stack.pop` (core/stack.py): `self.items.pop() if self.size() > 0 else 0`.
Returns the popped value together with the remaining stack
(head of the list is the top of the stack). -/
def Stack.pop : List Int → Int × List Int
  | [] => (0, [])
  | a :: t => (a, t)

/-- `Stack.push` (core/stack.py): `self.items.append(item)`. -/
def Stack.push (item : Int) (s : List Int) : List Int :=
  item :: s

/-- `Stack.peek` (core/stack.py): `self.items[-1] if self.items else 0`. -/
def Stack.peek (s : List Int) : Int :=
  s.headD 0

/-- `Stack.pop_two` (core/stack.py):

```
if self.size() == 1: return self.pop(), 0
if self.size() == 0: return 0, 0
return self.pop(), self.pop()
```
-/
def Stack.pop_two (s : List Int) : (Int × Int) × List Int :=
  if s.length = 1 then
    let (v, s1) := Stack.pop s
    ((v, 0), s1)
  else if s.length = 0 then
    ((0, 0), s)
  else
    let (first, s1) := Stack.pop s
    let (second, s2) := Stack.pop s1
    ((first, second), s2)

/-- `Stack.stack_swap` (core/stack.py):

```
if self.size() == 1: self.push(0)
b, a = self.pop_two()
self.push(b)
self.push(a)
```
-/
def Stack.stack_swap (s : List Int) : List Int :=
  let s0 := if s.length = 1 then Stack.push 0 s else s
  let ((b, a), s1) := Stack.pop_two s0
  Stack.push a (Stack.push b s1)

/-- `trunc_div` as defined locally in core/interpreter.py:
`0 if b == 0 else int(a / b)`.  The Python source computes `int(a / b)`
through binary64 float division; this embedding uses exact truncation
toward zero, which coincides with the source exactly when the quotient is
representable without rounding (the function's own docstring, and the
integer-only reimplementation `core/utils.py::trunc_div`, both specify
exact truncation — see `utils_trunc_div` below). -/
def trunc_div (a b : Int) : Int :=
  if b = 0 then 0 else a.tdiv b

/-- `c_mod` as defined in core/interpreter.py:
`0 if b == 0 else a - trunc_div(a, b) * b`. -/
def c_mod (a b : Int) : Int :=
  if b = 0 then 0 else a - trunc_div a b * b

/-- `trunc_div` from core/utils.py — the integer-only version
("Do it purely with integers to avoid float rounding on huge values"):

```
if b == 0: return 0
same_sign = (a >= 0) == (b >= 0)
q = (abs(a) // abs(b))
return q if same_sign else -q
```
-/
def utils_trunc_div (a b : Int) : Int :=
  if b = 0 then 0
  else
    let sameSign := (0 ≤ a) = (0 ≤ b)
    let q : Nat := a.natAbs / b.natAbs
    if sameSign then (q : Int) else -(q : Int)

/-- `c_mod` from core/utils.py:
`0 if b == 0 else a - trunc_div(a, b) * b` (with the utils `trunc_div`). -/
def utils_c_mod (a b : Int) : Int :=
  if b = 0 then 0 else a - utils_trunc_div a b * b

/-- The whole mutable state of one `Interpreter` (core/interpreter.py)
together with its `InstructionPointer` (core/InstructionPointer.py),
flattened into a single record.  Grid cells are character codes. -/
@[ext]
structure IState where
  grid : List (List Nat)
  width : Nat
  height : Nat
  origWidth : Nat
  origHeight : Nat
  x : Int
  y : Int
  dir : Direction
  skip : Bool
  string : Bool
  lastWasRandom : Bool
  waitingFor : Option WaitKind
  pendingInput : Option Int
  stack : List Int
  output : String
  halted : Bool
deriving DecidableEq, Repr

/-- `max((len(l) for l in lines), default=0)` from the
`InstructionPointer` constructor. -/
def maxRowLen (lines : List (List Nat)) : Nat :=
  lines.foldr (fun l m => max l.length m) 0

/-- `l.ljust(W, ' ')` on a row of character codes: pad on the right with
spaces (code 32) up to width `W`; rows already at least `W` long are
returned unchanged. -/
def padRow (W : Nat) (l : List Nat) : List Nat :=
  l ++ List.replicate (W - l.length) 32

/-- `Interpreter.load` for a program already given as a 2D character array
(the `InstructionPointer` constructor's list branch: joining each row to a
string and re-splitting it to characters is the identity on rows).  Builds
the padded grid (minimum 80×25, space fill), puts the IP at the origin
facing right with all flags cleared, and resets stack, output and the
halted flag — exactly the fields assigned by `load` and
`InstructionPointer.__init__`. -/
def loadRows (lines : List (List Nat)) : IState :=
  let origW := maxRowLen lines
  let origH := lines.length
  let W := max 80 origW
  let H := max 25 origH
  { grid := lines.map (fun l => padRow W l) ++
      List.replicate (H - lines.length) (List.replicate W 32)
    width := W
    height := H
    origWidth := origW
    origHeight := origH
    x := 0
    y := 0
    dir := .RIGHT
    skip := false
    string := false
    lastWasRandom := false
    waitingFor := none
    pendingInput := none
    stack := []
    output := ""
    halted := false }

/-- `Interpreter.load` applied to a program written as rows of characters. -/
def loadProg (rows : List (List Char)) : IState :=
  loadRows (rows.map (fun r => r.map Char.toNat))

/-- `Interpreter.reset`: `self.load(self.ip.grid)` — reload from the
*current* grid contents. -/
def reset (s : IState) : IState :=
  loadRows s.grid

/-- `Interpreter.provide_input`:
`self.ip.pending_input = value; self.ip.waiting_for = None`. -/
def provide_input (value : Int) (s : IState) : IState :=
  { s with pendingInput := some value, waitingFor := none }

/-- `InstructionPointer.move`: apply the direction delta with wraparound;
if `skip` is set, apply it once more first and clear the flag. -/
def move (s : IState) : IState :=
  let dx := s.dir.dx
  let dy := s.dir.dy
  let s1 :=
    if s.skip then
      { s with x := (s.x + dx).emod s.width, y := (s.y + dy).emod s.height,
               skip := false }
    else s
  { s1 with x := (s1.x + dx).emod s1.width, y := (s1.y + dy).emod s1.height }

/-- `self.ip.grid[self.ip.y][self.ip.x]` — the cell under the IP.  The IP
coordinates are maintained inside the grid bounds by `move`'s modular
arithmetic, so the defaults are never hit from reachable states. -/
def cellAt (s : IState) : Nat :=
  (s.grid.getD s.y.toNat []).getD s.x.toNat 32

/-- `self.ip.grid[yi][xi] = c` as a functional row/cell update. -/
def setCell (g : List (List Nat)) (yi xi : Nat) (c : Nat) : List (List Nat) :=
  g.set yi ((g.getD yi []).set xi c)

/-- `Interpreter._pop_or_zero`:
`self.stack.pop() if self.stack.size() > 0 else 0`. -/
def popZ (s : List Int) : Int × List Int :=
  if s.length > 0 then Stack.pop s else (0, s)

/-- `Interpreter._pop_two_ab`: `b, a = self.stack.pop_two(); return a, b`. -/
def popTwoAB (s : List Int) : (Int × Int) × List Int :=
  let ((b, a), s1) := Stack.pop_two s
  ((a, b), s1)

/-- `Interpreter._bin`: pop two operands and push `fn a b`. -/
def binOp (fn : Int → Int → Int) (s : IState) : IState :=
  let ((a, b), st) := popTwoAB s.stack
  { s with stack := Stack.push (fn a b) st }

/-- `Interpreter._gt`: push 1 if `a > b` else 0. -/
def gtOp (s : IState) : IState :=
  let ((a, b), st) := popTwoAB s.stack
  { s with stack := Stack.push (if a > b then 1 else 0) st }

/-- `Interpreter._not`: `push(0 if a else 1)` — a Python int is truthy iff
it is nonzero. -/
def notOp (s : IState) : IState :=
  let (a, st) := popZ s.stack
  { s with stack := Stack.push (if a ≠ 0 then 0 else 1) st }

/-- `Interpreter._put`: pop `y`, `x`, `v`; if the grid is nonempty, write
`chr(v % 256)` at `grid[y % h][x % w]`. -/
def putOp (s : IState) : IState :=
  let (y, st1) := popZ s.stack
  let (x, st2) := popZ st1
  let (v, st3) := popZ st2
  let h := s.grid.length
  let w := (s.grid.headD []).length
  if h ≠ 0 ∧ w ≠ 0 then
    { s with stack := st3,
             grid := setCell s.grid (y.emod (h : Int)).toNat
               (x.emod (w : Int)).toNat (v.emod 256).toNat }
  else
    { s with stack := st3 }

/-- `Interpreter._get`: pop `y`, `x`; push `ord(grid[y % h][x % w])`, or 0
for an empty grid. -/
def getOp (s : IState) : IState :=
  let (y, st1) := popZ s.stack
  let (x, st2) := popZ st1
  let h := s.grid.length
  let w := (s.grid.headD []).length
  if h ≠ 0 ∧ w ≠ 0 then
    let cell : Nat :=
      (s.grid.getD (y.emod (h : Int)).toNat []).getD (x.emod (w : Int)).toNat 32
    { s with stack := Stack.push (cell : Int) st2 }
  else
    { s with stack := Stack.push 0 st2 }

/-- `Interpreter._if_h` (the `_` opcode): pop; direction := RIGHT if the
value is 0 else LEFT (assigned directly to `ip.direction`, so
`last_was_random` is untouched). -/
def ifHOp (s : IState) : IState :=
  let (v, st) := popZ s.stack
  { s with stack := st, dir := if v = 0 then .RIGHT else .LEFT }

/-- `Interpreter._if_v` (the `|` opcode): pop; direction := DOWN if the
value is 0 else UP. -/
def ifVOp (s : IState) : IState :=
  let (v, st) := popZ s.stack
  { s with stack := st, dir := if v = 0 then .DOWN else .UP }

/-- `Interpreter._dup` (the `:` opcode):
`push(0 if self.stack.size() == 0 else self.stack.peek())`. -/
def dupOp (s : IState) : IState :=
  { s with stack :=
      Stack.push (if s.stack.length = 0 then 0 else Stack.peek s.stack) s.stack }

/-- `Interpreter._swap` (the `\` opcode):

```
n = self.stack.size()
if n >= 2: self.stack.stack_swap()
elif n == 1:
    a = self.stack.pop(); self.stack.push(0); self.stack.push(a)
else:
    self.stack.push(0)
```
-/
def swapOp (st : List Int) : List Int :=
  if st.length ≥ 2 then Stack.stack_swap st
  else if st.length = 1 then
    let (a, s1) := Stack.pop st
    Stack.push a (Stack.push 0 s1)
  else
    Stack.push 0 st

/-- `Interpreter._pop1` (the `$` opcode): pop and discard if nonempty. -/
def pop1Op (s : IState) : IState :=
  if s.stack.length > 0 then { s with stack := (Stack.pop s.stack).2 } else s

/-- `Interpreter._out_int` (the `.` opcode): append the decimal text of the
popped value. -/
def outIntOp (s : IState) : IState :=
  let (v, st) := popZ s.stack
  { s with stack := st, output := s.output ++ toString v }

/-- `Interpreter._out_char` (the `,` opcode): append `chr(v % 256)`. -/
def outCharOp (s : IState) : IState :=
  let (v, st) := popZ s.stack
  { s with stack := st,
           output := s.output.push (Char.ofNat (v.emod 256).toNat) }

/-- `Interpreter._set_dir` for the four cardinal opcodes: assign
`ip.direction` directly (`last_was_random` untouched). -/
def setDirOp (d : Direction) (s : IState) : IState :=
  { s with dir := d }

/-- `Interpreter._bridge` (the `#` opcode): `self.ip.skip = True`. -/
def bridgeOp (s : IState) : IState :=
  { s with skip := true }

/-- Dispatch of the `_ops` table from `Interpreter.__init__` for the
opcodes that return `None` (everything except `&` and `~`).  `rnd` is the
draw `Direction.random()` would produce for the `?` opcode; the source's
`_rand_dir` merely *returns* that direction to the step loop, which
discards any status other than `AWAITING_INPUT`, so the `?` branch leaves
the state unchanged.  An unknown glyph is a no-op (`self._ops.get(ch)`
returns nothing). -/
def applyOp (rnd : Direction) (c : Nat) (s : IState) : IState :=
  if c = '+'.toNat then binOp (fun a b => a + b) s
  else if c = '-'.toNat then binOp (fun a b => a - b) s
  else if c = '*'.toNat then binOp (fun a b => a * b) s
  else if c = '/'.toNat then binOp trunc_div s
  else if c = '%'.toNat then binOp c_mod s
  else if c = 96 then gtOp s          -- backquote: greater-than
  else if c = '!'.toNat then notOp s
  else if c = 'p'.toNat then putOp s
  else if c = 'g'.toNat then getOp s
  else if c = '_'.toNat then ifHOp s
  else if c = '|'.toNat then ifVOp s
  else if c = ':'.toNat then dupOp s
  else if c = '\\'.toNat then { s with stack := swapOp s.stack }
  else if c = '$'.toNat then pop1Op s
  else if c = '.'.toNat then outIntOp s
  else if c = ','.toNat then outCharOp s
  else if c = '>'.toNat then setDirOp .RIGHT s
  else if c = '<'.toNat then setDirOp .LEFT s
  else if c = '^'.toNat then setDirOp .UP s
  else if c = 'v'.toNat then setDirOp .DOWN s
  else if c = '?'.toNat then
    let _ := rnd                      -- _rand_dir: the draw is discarded
    s
  else if c = '#'.toNat then bridgeOp s
  else s

/-- The opcode-lookup tail of `Interpreter.step`: `&` and `~` set the wait
state and return `AWAITING_INPUT` without moving; every other opcode
executes, then the IP moves and the step reports `RUNNING`. -/
def execOp (rnd : Direction) (c : Nat) (s : IState) : StepStatus × IState :=
  if c = '&'.toNat then (.AWAITING_INPUT, { s with waitingFor := some WaitKind.int })
  else if c = '~'.toNat then (.AWAITING_INPUT, { s with waitingFor := some WaitKind.char })
  else (.RUNNING, move (applyOp rnd c s))

/-- `Interpreter.step` (core/interpreter.py).  Faithful branch order:
pending-input consumption first (`pending_input is not None and
waiting_for is None`; when that test passes `pending_input` is some value,
so `getD 0` returns exactly it); then the `'@'` halt check (before the
string-mode tests); then string-mode toggling and pushing; space; digits;
opcode dispatch.  `isdigit` is modelled for the ASCII digits `0`–`9`. -/
def step (rnd : Direction) (s : IState) : StepStatus × IState :=
  if s.pendingInput.isSome ∧ s.waitingFor = none then
    (.RUNNING, move { s with stack := Stack.push (s.pendingInput.getD 0) s.stack,
                             pendingInput := none })
  else if cellAt s = '@'.toNat then
    (.HALTED, { s with halted := true })
  else if cellAt s = '"'.toNat then
    (.RUNNING, move { s with string := !s.string })
  else if s.string then
    (.RUNNING, move { s with stack := Stack.push ((cellAt s : Nat) : Int) s.stack })
  else if cellAt s = ' '.toNat then
    (.RUNNING, move s)
  else if 48 ≤ cellAt s ∧ cellAt s ≤ 57 then
    (.RUNNING, move { s with stack := Stack.push ((cellAt s : Int) - 48) s.stack })
  else
    execOp rnd (cellAt s) s

/-- Rectangular, nonempty grid: at least one row, the first row nonempty,
and every row as long as the first.  This is the shape invariant
established by the `InstructionPointer` constructor and preserved by every
opcode. -/
def gridRect (g : List (List Nat)) : Prop :=
  g ≠ [] ∧ (g.headD []) ≠ [] ∧ ∀ r ∈ g, r.length = (g.headD []).length

instance (g : List (List Nat)) : Decidable (gridRect g) := by
  unfold gridRect
  infer_instance

/-- A grid already in the normal form produced by the constructor: height
at least 25, rows all of one width of at least 80. -/
def gridNorm (g : List (List Nat)) : Prop :=
  25 ≤ g.length ∧ 80 ≤ (g.headD []).length ∧
    ∀ r ∈ g, r.length = (g.headD []).length

instance (g : List (List Nat)) : Decidable (gridNorm g) := by
  unfold gridNorm
  infer_instance

/-! ## Helper lemmas -/

/-- `move` never touches the stack. -/
theorem move_stack (s : IState) : (move s).stack = s.stack := by
  by_cases h : s.skip <;> simp [move, h]

/-- `move` never touches the direction. -/
theorem move_dir (s : IState) : (move s).dir = s.dir := by
  by_cases h : s.skip <;> simp [move, h]

/-- `move` never touches the random-change marker. -/
theorem move_lastWasRandom (s : IState) :
    (move s).lastWasRandom = s.lastWasRandom := by
  by_cases h : s.skip <;> simp [move, h]

/-- `move` never touches the pending-input buffer. -/
theorem move_pendingInput (s : IState) :
    (move s).pendingInput = s.pendingInput := by
  by_cases h : s.skip <;> simp [move, h]

/-- On an already-halted state resting on `'@'` with no buffered input,
`step` returns HALTED and the state is untouched. -/
theorem step_halted_eq (rnd : Direction) (s : IState)
    (h1 : s.pendingInput = none) (h2 : cellAt s = '@'.toNat)
    (h3 : s.halted = true) :
    step rnd s = (.HALTED, s) := by
  simp [step, h1, h2]
  ext <;> simp [h1, h3]

/-- Reading back an updated list position with `getD` yields the new
element when the index is in range. -/
theorem getD_set_self {α : Type} (l : List α) (i : Nat) (a d : α)
    (h : i < l.length) : (l.set i a).getD i d = a := by
  induction l generalizing i with
  | nil => simp at h
  | cons b t ih =>
    cases i with
    | zero => rfl
    | succ k => exact ih k (by simpa using h)

/-- An in-range `getD` returns an element of the list. -/
theorem getD_mem {α : Type} (l : List α) (i : Nat) (d : α)
    (h : i < l.length) : l.getD i d ∈ l := by
  induction l generalizing i with
  | nil => simp at h
  | cons b t ih =>
    cases i with
    | zero => simp [List.getD]
    | succ k => exact List.mem_cons_of_mem b (ih k (by simpa using h))

/-- `setCell` preserves the grid height. -/
theorem setCell_length (g : List (List Nat)) (yi xi c : Nat) :
    (setCell g yi xi c).length = g.length := by
  simp [setCell]

/-- `setCell` preserves the length of the first row. -/
theorem setCell_headD_length (g : List (List Nat)) (yi xi c : Nat) :
    ((setCell g yi xi c).headD []).length = (g.headD []).length := by
  cases g with
  | nil => simp [setCell]
  | cons a t =>
    cases yi with
    | zero => simp [setCell, List.getD]
    | succ k => simp [setCell]

/-- Mapping a function that fixes every member of a list is the identity. -/
theorem map_id_of_mem {α : Type} (l : List α) (f : α → α)
    (h : ∀ a ∈ l, f a = a) : l.map f = l := by
  induction l with
  | nil => rfl
  | cons a t ih =>
    simp [h a (by simp), ih (fun b hb => h b (List.mem_cons_of_mem a hb))]

/-- On a nonempty list of rows of one common width, `maxRowLen` returns
that width. -/
theorem maxRowLen_eq (g : List (List Nat)) (w : Nat) (hne : g ≠ [])
    (hall : ∀ r ∈ g, r.length = w) : maxRowLen g = w := by
  induction g with
  | nil => exact absurd rfl hne
  | cons a t ih =>
    cases t with
    | nil => simp [maxRowLen, hall a (by simp)]
    | cons b t2 =>
      have ht : maxRowLen (b :: t2) = w :=
        ih (by simp) (fun r hr => hall r (List.mem_cons_of_mem a hr))
      show max a.length (maxRowLen (b :: t2)) = w
      rw [ht, hall a (by simp)]
      exact Nat.max_self w

/-- Loading a grid that is already in constructor normal form (height ≥ 25,
one common row width ≥ 80) reproduces that grid unchanged. -/
theorem loadRows_fixed (g : List (List Nat)) (hn : gridNorm g) :
    (loadRows g).grid = g := by
  obtain ⟨h25, h80, hall⟩ := hn
  have hne : g ≠ [] := by
    intro e
    rw [e] at h25
    simp at h25
  have hml : maxRowLen g = (g.headD []).length := maxRowLen_eq g _ hne hall
  have hW : max 80 (g.headD []).length = (g.headD []).length := Nat.max_eq_right h80
  have hH : max 25 g.length = g.length := Nat.max_eq_right h25
  simp only [loadRows, hml, hW, hH, Nat.sub_self, List.replicate_zero,
    List.append_nil]
  exact map_id_of_mem g _ (fun r hr => by simp [padRow, hall r hr])

/-- `utils_trunc_div` agrees with mathematical truncation toward zero
(`Int.tdiv`) on every input, the zero divisor included. -/
theorem utils_trunc_div_eq_tdiv (a b : Int) : utils_trunc_div a b = a.tdiv b := by
  rcases a with m | m <;> rcases b with n | n <;>
    simp [utils_trunc_div, Int.tdiv] <;>
    (intro h; subst h; simp)

/-! ## Claim theorems -/

/-- C1, counterexample: writing `v = 300` at cell (0,0) with `p` and
reading it back with `g` pushes `44 = 300 % 256`, not `300`: there is no
extended storage, the cell keeps only the low byte. -/
theorem put_get_out_of_range_cex :
    (getOp { (putOp { (loadProg [['@']]) with stack := [0, 0, 300] }) with
        stack := [0, 0] }).stack = [44] ∧
    (getOp { (putOp { (loadProg [['@']]) with stack := [0, 0, 300] }) with
        stack := [0, 0] }).stack ≠ [300] := by
  decide

/-- C1 (amended): on any rectangular nonempty grid, executing `p` with
stack `y, x, v` (top first) and then `g` with the same `y, x` pushes
exactly `v mod 256` — the value the grid cell can represent — rather than
`v` itself. -/
theorem put_then_get_pushes_low_byte (s : IState) (v x y : Int)
    (hg : gridRect s.grid) :
    ∀ s1, s1 = putOp { s with stack := y :: x :: v :: s.stack } →
      (getOp { s1 with stack := y :: x :: s1.stack }).stack =
        v.emod 256 :: s1.stack := by
  obtain ⟨hne, hr0, hall⟩ := hg
  intro s1 hs1
  have hh : s.grid.length ≠ 0 := by simpa [List.length_eq_zero] using hne
  have hw : (s.grid.headD []).length ≠ 0 := by
    simpa [List.length_eq_zero] using hr0
  have hHpos : 0 < s.grid.length := Nat.pos_of_ne_zero hh
  have hWpos : 0 < (s.grid.headD []).length := Nat.pos_of_ne_zero hw
  have hy0 : 0 ≤ y.emod (s.grid.length : Int) :=
    Int.emod_nonneg y (by exact_mod_cast hh)
  have hy1 : y.emod (s.grid.length : Int) < (s.grid.length : Int) :=
    Int.emod_lt_of_pos y (by exact_mod_cast hHpos)
  have hx0 : 0 ≤ x.emod ((s.grid.headD []).length : Int) :=
    Int.emod_nonneg x (by exact_mod_cast hw)
  have hx1 : x.emod ((s.grid.headD []).length : Int) <
      ((s.grid.headD []).length : Int) :=
    Int.emod_lt_of_pos x (by exact_mod_cast hWpos)
  have hyi : (y.emod (s.grid.length : Int)).toNat < s.grid.length := by omega
  have hxi : (x.emod ((s.grid.headD []).length : Int)).toNat <
      (s.grid.headD []).length := by omega
  subst hs1
  simp only [putOp, getOp, popZ, Stack.pop, Stack.push, List.length_cons,
    setCell_length, setCell_headD_length, hh, hw, Nat.succ_ne_zero, ne_eq,
    not_false_eq_true, and_self, if_true, gt_iff_lt, Nat.zero_lt_succ, if_pos]
  have hrowlen :
      (s.grid.getD (y.emod (s.grid.length : Int)).toNat []).length =
        (s.grid.headD []).length :=
    hall _ (getD_mem _ _ _ hyi)
  rw [setCell, getD_set_self _ _ _ _ hyi,
    getD_set_self _ _ _ _ (by rw [hrowlen]; exact hxi)]
  have hv : (0 : Int) ≤ v.emod 256 := Int.emod_nonneg v (by norm_num)
  simp [Int.toNat_of_nonneg hv]

/-- C1, witness: the amended round-trip at the concrete state loaded from
`@`, writing 300 at cell (2, 3). -/
theorem put_then_get_pushes_low_byte_w :
    gridRect (loadProg [['@']]).grid ∧
    (getOp { (putOp { (loadProg [['@']]) with
        stack := [3, 2, 300] }) with
        stack := 3 :: 2 :: (putOp { (loadProg [['@']]) with
          stack := [3, 2, 300] }).stack }).stack =
      (300 : Int).emod 256 ::
        (putOp { (loadProg [['@']]) with stack := [3, 2, 300] }).stack :=
  ⟨by decide,
    put_then_get_pushes_low_byte (loadProg [['@']]) 300 2 3 (by decide) _ rfl⟩

/-- C2, counterexample: running the program `"@` puts the IP in string
mode, yet the second step — reading `'@'` while string mode is active —
returns HALTED, pushes nothing and does not move, instead of pushing the
character code 64 as it would for any other character. -/
theorem string_mode_at_halts_cex :
    ((step .RIGHT (loadProg [['"', '@']])).2.string = true) ∧
    (step .RIGHT (step .RIGHT (loadProg [['"', '@']])).2).1 = .HALTED ∧
    (step .RIGHT (step .RIGHT (loadProg [['"', '@']])).2).2.stack = [] ∧
    (step .RIGHT (step .RIGHT (loadProg [['"', '@']])).2).2.x =
      (step .RIGHT (loadProg [['"', '@']])).2.x := by
  decide

/-- C2 (amended): `step()` halts on `'@'` in every mode: whenever the
current cell is `'@'` and no pending input is buffered — string mode
included — `step()` sets `halted` and returns HALTED without moving or
pushing (the `'@'` test precedes the string-mode test). -/
theorem at_halts_in_any_mode (rnd : Direction) (s : IState)
    (h1 : s.pendingInput = none) (h2 : cellAt s = '@'.toNat) :
    step rnd s = (.HALTED, { s with halted := true }) := by
  simp [step, h1, h2]

/-- C2, witness: the amended halt rule applied to the concrete string-mode
state reached after one step of the program `"@`. -/
theorem at_halts_in_any_mode_w :
    (step .RIGHT (loadProg [['"', '@']])).2.string = true ∧
    cellAt (step .RIGHT (loadProg [['"', '@']])).2 = '@'.toNat ∧
    step .UP (step .RIGHT (loadProg [['"', '@']])).2 =
      (.HALTED, { (step .RIGHT (loadProg [['"', '@']])).2 with halted := true }) :=
  ⟨by decide, by decide,
    at_halts_in_any_mode .UP ((step .RIGHT (loadProg [['"', '@']])).2)
      (by decide) (by decide)⟩

/-- C3: executing the `?` opcode changes neither the direction nor the
`lastWasRandom` marker, whatever direction the random source draws:
`_rand_dir` returns `Direction.random()` to the step loop, which discards
every return value other than AWAITING_INPUT, and
`InstructionPointer.change_direction` is never called. -/
theorem rand_dir_discards_draw (rnd : Direction) (s : IState)
    (h1 : s.pendingInput = none) (h2 : cellAt s = '?'.toNat)
    (h3 : s.string = false) :
    (step rnd s).1 = .RUNNING ∧
    (step rnd s).2.dir = s.dir ∧
    (step rnd s).2.lastWasRandom = s.lastWasRandom := by
  simp [step, execOp, applyOp, h1, h2, h3, move_dir, move_lastWasRandom]

/-- C3, witness: on the program `?`, with the random source drawing UP,
the step leaves the direction RIGHT and `lastWasRandom` false. -/
theorem rand_dir_discards_draw_w :
    cellAt (loadProg [['?']]) = '?'.toNat ∧
    ((step .UP (loadProg [['?']])).1 = .RUNNING ∧
     (step .UP (loadProg [['?']])).2.dir = (loadProg [['?']]).dir ∧
     (step .UP (loadProg [['?']])).2.lastWasRandom =
       (loadProg [['?']]).lastWasRandom) :=
  ⟨by decide,
    rand_dir_discards_draw .UP (loadProg [['?']]) (by decide) (by decide)
      (by decide)⟩

/-- C4: evaluation of the `\` opcode's short-stack cases (head of the list
is the top of the stack).  On the one-element stack `[5]` the code leaves
`5` on top with `0` beneath — bottom-to-top `[0, 5]`, not the `[5, 0]`
stated by the spec and by `Stack.stack_swap`'s own docstring — and on the
empty stack it pushes a single `0`, not two. -/
theorem swap_short_stack_eval :
    swapOp [5] = [5, 0] ∧ swapOp [5] ≠ [0, 5] ∧
    swapOp ([] : List Int) = [0] ∧ swapOp ([] : List Int) ≠ [0, 0] := by
  decide

/-- C6, counterexample: after the program `@` halts, calling
`provide_input(5)` and then `step()` silently resumes execution: the step
returns RUNNING, pushes 5 and advances the IP from x = 0 to x = 1. -/
theorem halted_resumes_on_input_cex :
    (step .RIGHT (loadProg [['@']])).1 = .HALTED ∧
    (step .RIGHT (provide_input 5 (step .RIGHT (loadProg [['@']])).2)).1 =
      .RUNNING ∧
    (step .RIGHT (provide_input 5 (step .RIGHT (loadProg [['@']])).2)).2.stack =
      [5] ∧
    (step .RIGHT (provide_input 5 (step .RIGHT (loadProg [['@']])).2)).2.x = 1 := by
  decide

/-- C6 (amended): once `step()` has returned HALTED, further `step()` calls
with no intervening `provide_input` keep returning HALTED and leave the
state unchanged; but the implementation does not reject resumption —
`provide_input(v)` followed by `step()` pushes `v`, clears the buffer and
returns RUNNING, silently resuming execution. -/
theorem halted_noop_without_input (rnd : Direction) (v : Int) (s : IState)
    (h1 : s.pendingInput = none) (h2 : cellAt s = '@'.toNat)
    (h3 : s.halted = true) :
    step rnd s = (.HALTED, s) ∧
    (step rnd (provide_input v s)).1 = .RUNNING ∧
    (step rnd (provide_input v s)).2.stack = v :: s.stack ∧
    (step rnd (provide_input v s)).2.pendingInput = none := by
  refine ⟨step_halted_eq rnd s h1 h2 h3, ?_, ?_, ?_⟩ <;>
    simp [step, provide_input, move_stack, move_pendingInput, Stack.push]

/-- C6, witness: the amended behavior at the concrete halted state of the
program `@` with input value 5. -/
theorem halted_noop_without_input_w :
    cellAt (step .RIGHT (loadProg [['@']])).2 = '@'.toNat ∧
    (step .LEFT (step .RIGHT (loadProg [['@']])).2 =
      (.HALTED, (step .RIGHT (loadProg [['@']])).2) ∧
     (step .LEFT (provide_input 5 (step .RIGHT (loadProg [['@']])).2)).1 =
       .RUNNING ∧
     (step .LEFT (provide_input 5 (step .RIGHT (loadProg [['@']])).2)).2.stack =
       5 :: (step .RIGHT (loadProg [['@']])).2.stack ∧
     (step .LEFT (provide_input 5
         (step .RIGHT (loadProg [['@']])).2)).2.pendingInput = none) :=
  ⟨by decide,
    halted_noop_without_input .LEFT 5 ((step .RIGHT (loadProg [['@']])).2)
      (by decide) (by decide) (by decide)⟩

/-- C7: the integer-only division pair of core/utils.py satisfies every
claimed property: for `b ≠ 0` the division identity
`trunc_div(a,b) * b + c_mod(a,b) = a` holds, the quotient is the exact
truncation toward zero (`Int.tdiv`), the worked examples
`trunc_div(-7,3) = -2` and `c_mod(-7,3) = -1` hold, and both functions
return 0 on a zero divisor.  (The float-based copy of `trunc_div` inside
core/interpreter.py breaks the truncation property on large operands; see
the development notes on `trunc_div` above.) -/
theorem utils_div_mod_spec (a b : Int) (h : b ≠ 0) :
    utils_trunc_div a b * b + utils_c_mod a b = a ∧
    utils_trunc_div a b = a.tdiv b ∧
    utils_trunc_div (-7) 3 = -2 ∧ utils_c_mod (-7) 3 = -1 ∧
    utils_trunc_div a 0 = 0 ∧ utils_c_mod a 0 = 0 := by
  refine ⟨?_, utils_trunc_div_eq_tdiv a b, by decide, by decide, ?_, ?_⟩
  · simp [utils_c_mod, h]
  · simp [utils_trunc_div]
  · simp [utils_c_mod]

/-- C7, witness: the division contract evaluated at `a = -7`, `b = 3`. -/
theorem utils_div_mod_spec_w :
    (3 : Int) ≠ 0 ∧
    (utils_trunc_div (-7) 3 * 3 + utils_c_mod (-7) 3 = -7 ∧
     utils_trunc_div (-7) 3 = Int.tdiv (-7) 3 ∧
     utils_trunc_div (-7) 3 = -2 ∧ utils_c_mod (-7) 3 = -1 ∧
     utils_trunc_div (-7) 0 = 0 ∧ utils_c_mod (-7) 0 = 0) :=
  ⟨by decide, utils_div_mod_spec (-7) 3 (by decide)⟩

/-- C8: `Stack.pop_two` follows the short-stack policy exactly: on an
empty stack it returns `(0, 0)`; on a one-element stack `[v]` it returns
`(v, 0)` and leaves the stack empty (the element is consumed); on a stack
of two or more it pops twice and returns `(firstPopped, secondPopped)`
with the rest untouched. -/
theorem pop_two_policy (s : List Int) :
    (s = [] → Stack.pop_two s = ((0, 0), [])) ∧
    (∀ v, s = [v] → Stack.pop_two s = ((v, 0), [])) ∧
    (∀ a b t, s = a :: b :: t → Stack.pop_two s = ((a, b), t)) := by
  refine ⟨fun h => ?_, fun v h => ?_, fun a b t h => ?_⟩ <;>
    subst h <;> simp [Stack.pop_two, Stack.pop]

/-- C8, witness: the one-element case at `[9]` — the element is consumed
and the stack is left empty. -/
theorem pop_two_policy_w :
    ([9] : List Int) = [9] ∧ Stack.pop_two [9] = ((9, 0), []) :=
  ⟨rfl, (pop_two_policy [9]).2.1 9 rfl⟩

/-- C9: `reset()` reloads from the current grid contents — for any state
whose grid is in constructor normal form (as every reachable grid is,
self-modifications by `p` included) the grid survives unchanged, while the
stack, output, halted flag, string mode and pending input are cleared and
the IP returns to the origin facing right. -/
theorem reset_reloads_current_grid (s : IState) (hn : gridNorm s.grid) :
    (reset s).grid = s.grid ∧ (reset s).stack = [] ∧ (reset s).output = "" ∧
    (reset s).halted = false ∧ (reset s).x = 0 ∧ (reset s).y = 0 ∧
    (reset s).dir = Direction.RIGHT ∧ (reset s).string = false ∧
    (reset s).pendingInput = none :=
  ⟨loadRows_fixed s.grid hn, rfl, rfl, rfl, rfl, rfl, rfl, rfl, rfl⟩

/-- C9, witness: a state whose grid was self-modified by `p` (writing
character 65 at cell (0,0) of the program `@`) resets to the *modified*
grid, not the original source. -/
theorem reset_reloads_current_grid_w :
    gridNorm (putOp { (loadProg [['@']]) with stack := [0, 0, 65] }).grid ∧
    (reset (putOp { (loadProg [['@']]) with stack := [0, 0, 65] })).grid =
      (putOp { (loadProg [['@']]) with stack := [0, 0, 65] }).grid :=
  ⟨by decide,
    (reset_reloads_current_grid
      (putOp { (loadProg [['@']]) with stack := [0, 0, 65] }) (by decide)).1⟩

/-- C10: from a halted state resting on `'@'` outside string mode with no
pending input, `step()` returns HALTED and the entire state — grid, stack,
IP position, direction, flags, output and the halted flag — is exactly
unchanged. -/
theorem step_after_halt_frame (rnd : Direction) (s : IState)
    (h1 : s.pendingInput = none) (h2 : cellAt s = '@'.toNat)
    (h3 : s.halted = true) (_h4 : s.string = false) :
    step rnd s = (.HALTED, s) :=
  step_halted_eq rnd s h1 h2 h3

/-- C10, witness: the frame property at the concrete halted state of the
program `@`. -/
theorem step_after_halt_frame_w :
    cellAt (step .RIGHT (loadProg [['@']])).2 = '@'.toNat ∧
    (step .RIGHT (loadProg [['@']])).2.string = false ∧
    step .UP (step .RIGHT (loadProg [['@']])).2 =
      (.HALTED, (step .RIGHT (loadProg [['@']])).2) :=
  ⟨by decide, by decide,
    step_after_halt_frame .UP ((step .RIGHT (loadProg [['@']])).2)
      (by decide) (by decide) (by decide) (by decide)⟩
